import Mathlib

/-!
Shallow embedding of the HDMI-CEC initiator (transmit) state machine from the
repository's CEC driver source file.  The module-level C globals
(`cec_state`, `cec_tx`, `cec_events`, the GPIO output line and the two
hardware one-shot timers) are gathered into one explicit state record
`CecSystem`, and every C function that mutates them becomes a Lean function
from `CecSystem` to `CecSystem`.  The APB1 clock basis
(`apb1_freq_div_10k` in the source) is passed explicitly as `basis`, and the
line level read by `gpio_get_level` at the ACK sample point is passed
explicitly as `lineIn`.  The field `sentEvents` is ghost instrumentation: it
records, in order, every event value passed to `send_mkbp_event`, so that
"exactly one result event was recorded" is expressible; the bitmask field
`events` models the real `cec_events` word updated with `atomic_or`.
-/

namespace Cec

/-- Modelled from the spec: `MAX_CEC_MSG_LEN` is declared in the external
header `ec_commands.h`, which is not part of the sources; the spec fixes the
message buffer capacity at 16 bytes (1 header byte + up to 15 data bytes). -/
def MAX_CEC_MSG_LEN : Nat := 16

/-- CEC broadcast address, also the highest possible CEC address. -/
def CEC_BROADCAST_ADDR : Nat := 15

/-- Maximum number of resend attempts. -/
def CEC_MAX_RESENDS : Nat := 5

/-- Modelled from the spec: the send-ok result event flag
(`EC_MKBP_CEC_SEND_OK` in the external header `ec_commands.h`); the spec only
requires the two outcome flags to be distinct bits of the event bitmask. -/
def EC_MKBP_CEC_SEND_OK : Nat := 1

/-- Modelled from the spec: the send-failed result event flag
(`EC_MKBP_CEC_SEND_FAILED` in the external header `ec_commands.h`). -/
def EC_MKBP_CEC_SEND_FAILED : Nat := 2

/-- Time in us to timer clock ticks: `(t) * apb1_freq_div_10k / 100`.
`basis` is `apb1_freq_div_10k`, the APB1 frequency divided by 10000. -/
def APB1_TICKS (basis t : Nat) : Nat := t * basis / 100

/-- Nominal bit time. -/
def NOMINAL_BIT_TIME (basis : Nat) : Nat := APB1_TICKS basis 2400

/-- Free time before a resend: 3 nominal bit times. -/
def FREE_TIME_RS (basis : Nat) : Nat := 3 * NOMINAL_BIT_TIME basis

/-- Free time for a new initiator: 5 nominal bit times. -/
def FREE_TIME_NI (basis : Nat) : Nat := 5 * NOMINAL_BIT_TIME basis

/-- Start bit low-phase duration. -/
def START_BIT_LOW (basis : Nat) : Nat := APB1_TICKS basis 3700

/-- Start bit high-phase duration. -/
def START_BIT_HIGH (basis : Nat) : Nat := APB1_TICKS basis 800

/-- Data-zero low-phase duration. -/
def DATA_ZERO_LOW (basis : Nat) : Nat := APB1_TICKS basis 1500

/-- Data-zero high-phase duration. -/
def DATA_ZERO_HIGH (basis : Nat) : Nat := APB1_TICKS basis 900

/-- Data-one low-phase duration. -/
def DATA_ONE_LOW (basis : Nat) : Nat := APB1_TICKS basis 600

/-- Data-one high-phase duration. -/
def DATA_ONE_HIGH (basis : Nat) : Nat := APB1_TICKS basis 1800

/-- Time from low at which it is safe to sample an ACK. -/
def NOMINAL_SAMPLE_TIME (basis : Nat) : Nat := APB1_TICKS basis 1050

/-- `DATA_LOW(data)`: low-phase duration selected by the (C truthy) data
value. -/
def DATA_LOW (basis data : Nat) : Nat :=
  if data ≠ 0 then DATA_ONE_LOW basis else DATA_ZERO_LOW basis

/-- `DATA_HIGH(data)`: high-phase duration selected by the (C truthy) data
value. -/
def DATA_HIGH (basis data : Nat) : Nat :=
  if data ≠ 0 then DATA_ONE_HIGH basis else DATA_ZERO_HIGH basis

/-- CEC state machine states (the initiator subset used by this driver). -/
inductive CecState where
  | CEC_STATE_IDLE
  | CEC_STATE_INITIATOR_FREE_TIME
  | CEC_STATE_INITIATOR_START_LOW
  | CEC_STATE_INITIATOR_START_HIGH
  | CEC_STATE_INITIATOR_HEADER_INIT_LOW
  | CEC_STATE_INITIATOR_HEADER_INIT_HIGH
  | CEC_STATE_INITIATOR_HEADER_DEST_LOW
  | CEC_STATE_INITIATOR_HEADER_DEST_HIGH
  | CEC_STATE_INITIATOR_DATA_LOW
  | CEC_STATE_INITIATOR_DATA_HIGH
  | CEC_STATE_INITIATOR_EOM_LOW
  | CEC_STATE_INITIATOR_EOM_HIGH
  | CEC_STATE_INITIATOR_ACK_LOW
  | CEC_STATE_INITIATOR_ACK_HIGH
  | CEC_STATE_INITIATOR_ACK_VERIFY
  deriving DecidableEq, Repr

/-- CEC message during transfer (`struct cec_msg_transfer`).  `buf` holds the
16 message bytes; `bit` and `byte` are the `uint8_t` cursor fields. -/
structure cec_msg_transfer where
  buf : List Nat
  bit : Nat
  byte : Nat
  deriving DecidableEq, Repr

/-- Transfer buffer and attempt state (`struct cec_tx`). -/
structure cec_tx_state where
  msgt : cec_msg_transfer
  len : Nat
  resends : Nat
  ack : Bool
  deriving DecidableEq, Repr

/-- Aggregated module state: the C globals plus the hardware collaborators
(GPIO output level, the bit timer and the transfer-start timer) and the ghost
trace of emitted result events. -/
structure CecSystem where
  state : CecState
  tx : cec_tx_state
  events : Nat
  line : Bool
  timer : Option Nat
  tmr2 : Option Nat
  sentEvents : List Nat
  deriving DecidableEq, Repr

/-- `send_mkbp_event`: OR the event into the pending bitmask (`atomic_or`)
and signal the consumer; the ghost trace records the call. -/
def send_mkbp_event (event : Nat) (s : CecSystem) : CecSystem :=
  { s with events := s.events ||| event, sentEvents := s.sentEvents ++ [event] }

/-- `msgt_get_bit`: current bit of the outgoing message, returned as the C
`int` (zero, or the non-zero masked bit). -/
def msgt_get_bit (msgt : cec_msg_transfer) : Nat :=
  if msgt.byte ≥ MAX_CEC_MSG_LEN then 0
  else msgt.buf.getD msgt.byte 0 &&& (1 <<< (7 - msgt.bit))

/-- `msgt_inc_bit`: advance the cursor one bit.  The cursor fields are
`uint8_t`, so the pre-increment of `bit` wraps modulo 256. -/
def msgt_inc_bit (msgt : cec_msg_transfer) : cec_msg_transfer :=
  let b := (msgt.bit + 1) % 256
  if b = 8 then
    if msgt.byte ≥ MAX_CEC_MSG_LEN then { msgt with bit := b }
    else { msgt with bit := 0, byte := (msgt.byte + 1) % 256 }
  else { msgt with bit := b }

/-- `msgt_is_eom`: 1 when the cursor sits exactly at the end of the message
(bit offset 0 and byte offset equal to `len`), else 0, as the C `int`. -/
def msgt_is_eom (msgt : cec_msg_transfer) (len : Nat) : Nat :=
  if msgt.bit ≠ 0 then 0
  else if msgt.byte = len then 1 else 0

/-- `enter_state`: set the new state, then perform its entry action — update
the cursor where the state resets it, set the output line level where the
state drives it, arm the one-shot timer where the state has a timeout, and at
`ACK_VERIFY` sample the line (`lineIn`) and record the acknowledge flag with
the broadcast inversion. -/
def enter_state (basis : Nat) (lineIn : Bool) (new_state : CecState)
    (s0 : CecSystem) : CecSystem :=
  let s := { s0 with state := new_state }
  match new_state with
  | .CEC_STATE_IDLE =>
      { s with tx.msgt.bit := 0, tx.msgt.byte := 0 }
  | .CEC_STATE_INITIATOR_FREE_TIME =>
      let timeout := if s.tx.resends ≠ 0 then FREE_TIME_RS basis
                     else FREE_TIME_NI basis
      { s with line := true, timer := some timeout }
  | .CEC_STATE_INITIATOR_START_LOW =>
      { s with tx.msgt.bit := 0, tx.msgt.byte := 0,
               line := false, timer := some (START_BIT_LOW basis) }
  | .CEC_STATE_INITIATOR_START_HIGH =>
      { s with line := true, timer := some (START_BIT_HIGH basis) }
  | .CEC_STATE_INITIATOR_HEADER_INIT_LOW =>
      { s with line := false,
               timer := some (DATA_LOW basis (msgt_get_bit s.tx.msgt)) }
  | .CEC_STATE_INITIATOR_HEADER_DEST_LOW =>
      { s with line := false,
               timer := some (DATA_LOW basis (msgt_get_bit s.tx.msgt)) }
  | .CEC_STATE_INITIATOR_DATA_LOW =>
      { s with line := false,
               timer := some (DATA_LOW basis (msgt_get_bit s.tx.msgt)) }
  | .CEC_STATE_INITIATOR_HEADER_INIT_HIGH =>
      { s with line := true,
               timer := some (DATA_HIGH basis (msgt_get_bit s.tx.msgt)) }
  | .CEC_STATE_INITIATOR_HEADER_DEST_HIGH =>
      { s with line := true,
               timer := some (DATA_HIGH basis (msgt_get_bit s.tx.msgt)) }
  | .CEC_STATE_INITIATOR_DATA_HIGH =>
      { s with line := true,
               timer := some (DATA_HIGH basis (msgt_get_bit s.tx.msgt)) }
  | .CEC_STATE_INITIATOR_EOM_LOW =>
      { s with line := false,
               timer := some (DATA_LOW basis (msgt_is_eom s.tx.msgt s.tx.len)) }
  | .CEC_STATE_INITIATOR_EOM_HIGH =>
      { s with line := true,
               timer := some (DATA_HIGH basis (msgt_is_eom s.tx.msgt s.tx.len)) }
  | .CEC_STATE_INITIATOR_ACK_LOW =>
      { s with line := false, timer := some (DATA_LOW basis 1) }
  | .CEC_STATE_INITIATOR_ACK_HIGH =>
      { s with line := true,
               timer := some ((DATA_ONE_LOW basis + DATA_ZERO_LOW basis) / 2
                               - DATA_ONE_LOW basis) }
  | .CEC_STATE_INITIATOR_ACK_VERIFY =>
      let a := !lineIn
      let a := if s.tx.msgt.buf.getD 0 0 % 16 = CEC_BROADCAST_ADDR then !a else a
      { s with tx.ack := a,
               timer := some (NOMINAL_BIT_TIME basis - NOMINAL_SAMPLE_TIME basis) }

/-- `cec_event_timeout`: the timer-expiry transition function. -/
def cec_event_timeout (basis : Nat) (lineIn : Bool) (s : CecSystem) : CecSystem :=
  match s.state with
  | .CEC_STATE_IDLE => s
  | .CEC_STATE_INITIATOR_FREE_TIME =>
      enter_state basis lineIn .CEC_STATE_INITIATOR_START_LOW s
  | .CEC_STATE_INITIATOR_START_LOW =>
      enter_state basis lineIn .CEC_STATE_INITIATOR_START_HIGH s
  | .CEC_STATE_INITIATOR_START_HIGH =>
      enter_state basis lineIn .CEC_STATE_INITIATOR_HEADER_INIT_LOW s
  | .CEC_STATE_INITIATOR_HEADER_INIT_LOW =>
      enter_state basis lineIn .CEC_STATE_INITIATOR_HEADER_INIT_HIGH s
  | .CEC_STATE_INITIATOR_HEADER_INIT_HIGH =>
      let s := { s with tx.msgt := msgt_inc_bit s.tx.msgt }
      if s.tx.msgt.bit = 4 then
        enter_state basis lineIn .CEC_STATE_INITIATOR_HEADER_DEST_LOW s
      else
        enter_state basis lineIn .CEC_STATE_INITIATOR_HEADER_INIT_LOW s
  | .CEC_STATE_INITIATOR_HEADER_DEST_LOW =>
      enter_state basis lineIn .CEC_STATE_INITIATOR_HEADER_DEST_HIGH s
  | .CEC_STATE_INITIATOR_HEADER_DEST_HIGH =>
      let s := { s with tx.msgt := msgt_inc_bit s.tx.msgt }
      if s.tx.msgt.byte = 1 then
        enter_state basis lineIn .CEC_STATE_INITIATOR_EOM_LOW s
      else
        enter_state basis lineIn .CEC_STATE_INITIATOR_HEADER_DEST_LOW s
  | .CEC_STATE_INITIATOR_EOM_LOW =>
      enter_state basis lineIn .CEC_STATE_INITIATOR_EOM_HIGH s
  | .CEC_STATE_INITIATOR_EOM_HIGH =>
      enter_state basis lineIn .CEC_STATE_INITIATOR_ACK_LOW s
  | .CEC_STATE_INITIATOR_ACK_LOW =>
      enter_state basis lineIn .CEC_STATE_INITIATOR_ACK_HIGH s
  | .CEC_STATE_INITIATOR_ACK_HIGH =>
      enter_state basis lineIn .CEC_STATE_INITIATOR_ACK_VERIFY s
  | .CEC_STATE_INITIATOR_ACK_VERIFY =>
      if s.tx.ack then
        if msgt_is_eom s.tx.msgt s.tx.len = 0 then
          enter_state basis lineIn .CEC_STATE_INITIATOR_DATA_LOW s
        else
          let s := { s with tx.len := 0, tx.resends := 0 }
          send_mkbp_event EC_MKBP_CEC_SEND_OK
            (enter_state basis lineIn .CEC_STATE_IDLE s)
      else
        if s.tx.resends < CEC_MAX_RESENDS then
          enter_state basis lineIn .CEC_STATE_INITIATOR_FREE_TIME
            { s with tx.resends := s.tx.resends + 1 }
        else
          let s := { s with tx.len := 0, tx.resends := 0 }
          send_mkbp_event EC_MKBP_CEC_SEND_FAILED
            (enter_state basis lineIn .CEC_STATE_IDLE s)
  | .CEC_STATE_INITIATOR_DATA_LOW =>
      enter_state basis lineIn .CEC_STATE_INITIATOR_DATA_HIGH s
  | .CEC_STATE_INITIATOR_DATA_HIGH =>
      let s := { s with tx.msgt := msgt_inc_bit s.tx.msgt }
      if s.tx.msgt.bit = 0 then
        enter_state basis lineIn .CEC_STATE_INITIATOR_EOM_LOW s
      else
        enter_state basis lineIn .CEC_STATE_INITIATOR_DATA_LOW s

/-- `cec_event_tx`: a transfer has been initiated from the AP; start the
frame.  The line sample is irrelevant here (only `ACK_VERIFY` reads it). -/
def cec_event_tx (basis : Nat) (s : CecSystem) : CecSystem :=
  enter_state basis false .CEC_STATE_INITIATOR_FREE_TIME s

/-- Second half of `cec_isr` for the transfer-start event: `tmr2_stop()`
followed by `cec_event_tx()`. -/
def cec_isr_tx (basis : Nat) (s : CecSystem) : CecSystem :=
  cec_event_tx basis { s with tmr2 := none }

/-- `memcpy(dst, src, n)` on byte lists: the first `n` entries of `dst` are
replaced by the corresponding entries of `src`. -/
def memcpyList (dst src : List Nat) (n : Nat) : List Nat :=
  (List.range dst.length).map
    (fun i => if i < n then src.getD i 0 else dst.getD i 0)

/-- `cec_send`: admission.  Busy (returns -1) when a transfer is in progress
(`cec_tx.len != 0`); otherwise store the length, copy the message into the
transfer buffer, arm the transfer-start timer (`tmr2_start(0)`) and return 0. -/
def cec_send (msg : List Nat) (len : Nat) (s : CecSystem) : Int × CecSystem :=
  if s.tx.len ≠ 0 then (-1, s)
  else
    let s := { s with tx.len := len }
    let s := { s with tx.msgt.buf := memcpyList s.tx.msgt.buf msg len }
    let s := { s with tmr2 := some 0 }
    (0, s)

/-- Modelled from the spec: host-command result codes (`EC_RES_SUCCESS` etc.
live in the external header `ec_commands.h`); only their distinctness
matters here. -/
def EC_RES_SUCCESS : Nat := 0

/-- Modelled from the spec: invalid-parameter host-command result code. -/
def EC_RES_INVALID_PARAM : Nat := 3

/-- Modelled from the spec: busy host-command result code. -/
def EC_RES_BUSY : Nat := 16

/-- `hc_cec_write`: the host command that validates the parameter size
(1 to `MAX_CEC_MSG_LEN` bytes) and calls `cec_send`. -/
def hc_cec_write (msg : List Nat) (params_size : Nat) (s : CecSystem) :
    Nat × CecSystem :=
  if params_size = 0 ∨ params_size > MAX_CEC_MSG_LEN then
    (EC_RES_INVALID_PARAM, s)
  else
    let r := cec_send msg params_size s
    if r.1 ≠ 0 then (EC_RES_BUSY, r.2) else (EC_RES_SUCCESS, r.2)

/-- The zero-initialized module state after `cec_init` (C globals are
zero-initialized; state 0 is `CEC_STATE_IDLE`; the open-drain line is
released, i.e. high; no timer armed). -/
def initSystem : CecSystem :=
  { state := .CEC_STATE_IDLE
    tx := { msgt := { buf := List.replicate 16 0, bit := 0, byte := 0 }
            len := 0, resends := 0, ack := false }
    events := 0
    line := true
    timer := none
    tmr2 := none
    sentEvents := [] }

/-- One timeout step where the line level sampled at the ACK point is chosen
by the driver function `f` from the current state. -/
def stepWith (basis : Nat) (f : CecSystem → Bool) (s : CecSystem) : CecSystem :=
  cec_event_timeout basis (f s) s

/-- Iterated timeout steps. -/
def runWith (basis : Nat) (f : CecSystem → Bool) (n : Nat) (s : CecSystem) :
    CecSystem :=
  (stepWith basis f)^[n] s

/-- True exactly when the message being sent is addressed to the broadcast
address (destination nibble of the header byte is 15). -/
def broadcastFlag (s : CecSystem) : Bool :=
  decide (s.tx.msgt.buf.getD 0 0 % 16 = CEC_BROADCAST_ADDR)

/-- The ACK sample that reads as "acknowledged": line low for a directly
addressed message, line high for a broadcast. -/
def ackOkSample (s : CecSystem) : Bool := broadcastFlag s

/-- The ACK sample that reads as "not acknowledged": the inverse of
`ackOkSample`. -/
def ackFailSample (s : CecSystem) : Bool := !broadcastFlag s

/-- Cursor bounds that hold in every reachable state, refined per machine
state; together with a global length bound and the fact that the
transfer-start timer is only ever armed in `IDLE` with a message pending. -/
def Inv (s : CecSystem) : Prop :=
  s.tx.len ≤ 16 ∧
  (s.tmr2 ≠ none → s.state = .CEC_STATE_IDLE ∧ 1 ≤ s.tx.len) ∧
  (match s.state with
   | .CEC_STATE_IDLE =>
       s.tx.msgt.bit = 0 ∧ s.tx.msgt.byte = 0
   | .CEC_STATE_INITIATOR_FREE_TIME =>
       s.tx.msgt.bit = 0 ∧ s.tx.msgt.byte ≤ s.tx.len ∧ 1 ≤ s.tx.len
   | .CEC_STATE_INITIATOR_START_LOW =>
       s.tx.msgt.bit = 0 ∧ s.tx.msgt.byte = 0 ∧ 1 ≤ s.tx.len
   | .CEC_STATE_INITIATOR_START_HIGH =>
       s.tx.msgt.bit = 0 ∧ s.tx.msgt.byte = 0 ∧ 1 ≤ s.tx.len
   | .CEC_STATE_INITIATOR_HEADER_INIT_LOW =>
       s.tx.msgt.bit ≤ 3 ∧ s.tx.msgt.byte = 0 ∧ 1 ≤ s.tx.len
   | .CEC_STATE_INITIATOR_HEADER_INIT_HIGH =>
       s.tx.msgt.bit ≤ 3 ∧ s.tx.msgt.byte = 0 ∧ 1 ≤ s.tx.len
   | .CEC_STATE_INITIATOR_HEADER_DEST_LOW =>
       4 ≤ s.tx.msgt.bit ∧ s.tx.msgt.bit ≤ 7 ∧ s.tx.msgt.byte = 0 ∧
         1 ≤ s.tx.len
   | .CEC_STATE_INITIATOR_HEADER_DEST_HIGH =>
       4 ≤ s.tx.msgt.bit ∧ s.tx.msgt.bit ≤ 7 ∧ s.tx.msgt.byte = 0 ∧
         1 ≤ s.tx.len
   | .CEC_STATE_INITIATOR_DATA_LOW =>
       s.tx.msgt.bit ≤ 7 ∧ s.tx.msgt.byte < s.tx.len
   | .CEC_STATE_INITIATOR_DATA_HIGH =>
       s.tx.msgt.bit ≤ 7 ∧ s.tx.msgt.byte < s.tx.len
   | .CEC_STATE_INITIATOR_EOM_LOW =>
       s.tx.msgt.bit = 0 ∧ 1 ≤ s.tx.msgt.byte ∧ s.tx.msgt.byte ≤ s.tx.len
   | .CEC_STATE_INITIATOR_EOM_HIGH =>
       s.tx.msgt.bit = 0 ∧ 1 ≤ s.tx.msgt.byte ∧ s.tx.msgt.byte ≤ s.tx.len
   | .CEC_STATE_INITIATOR_ACK_LOW =>
       s.tx.msgt.bit = 0 ∧ 1 ≤ s.tx.msgt.byte ∧ s.tx.msgt.byte ≤ s.tx.len
   | .CEC_STATE_INITIATOR_ACK_HIGH =>
       s.tx.msgt.bit = 0 ∧ 1 ≤ s.tx.msgt.byte ∧ s.tx.msgt.byte ≤ s.tx.len
   | .CEC_STATE_INITIATOR_ACK_VERIFY =>
       s.tx.msgt.bit = 0 ∧ 1 ≤ s.tx.msgt.byte ∧ s.tx.msgt.byte ≤ s.tx.len)

/-- States reachable by the driver: from the zero-initialized module state,
via host write commands, timer expiries (with any line level at the sample
point), and the transfer-start trigger (only when its one-shot timer was
armed by `cec_send`, and consuming it stops that timer, as `cec_isr` does). -/
inductive Reach (basis : Nat) : CecSystem → Prop where
  | init : Reach basis initSystem
  | host_send (msg : List Nat) (params_size : Nat) {s : CecSystem} :
      Reach basis s → Reach basis (hc_cec_write msg params_size s).2
  | timer (lineIn : Bool) {s : CecSystem} :
      Reach basis s → Reach basis (cec_event_timeout basis lineIn s)
  | txStart {s : CecSystem} :
      Reach basis s → s.tmr2 ≠ none → Reach basis (cec_isr_tx basis s)

theorem runWith_zero (basis : Nat) (f : CecSystem → Bool) (s : CecSystem) :
    runWith basis f 0 s = s := rfl

theorem runWith_succ (basis : Nat) (f : CecSystem → Bool) (n : Nat)
    (s : CecSystem) :
    runWith basis f (n + 1) s = runWith basis f n (stepWith basis f s) :=
  Function.iterate_succ_apply _ _ _

theorem runWith_succ' (basis : Nat) (f : CecSystem → Bool) (n : Nat)
    (s : CecSystem) :
    runWith basis f (n + 1) s = stepWith basis f (runWith basis f n s) :=
  Function.iterate_succ_apply' _ _ _

theorem runWith_add (basis : Nat) (f : CecSystem → Bool) (m n : Nat)
    (s : CecSystem) :
    runWith basis f (m + n) s = runWith basis f m (runWith basis f n s) :=
  Function.iterate_add_apply _ _ _ _

theorem Reach_stepWith {basis : Nat} (f : CecSystem → Bool) {s : CecSystem}
    (h : Reach basis s) : Reach basis (stepWith basis f s) :=
  Reach.timer (f s) h

theorem Reach_runWith {basis : Nat} (f : CecSystem → Bool) (n : Nat)
    {s : CecSystem} (h : Reach basis s) : Reach basis (runWith basis f n s) := by
  induction n with
  | zero => exact h
  | succ n ih => rw [runWith_succ']; exact Reach_stepWith f ih

end Cec

namespace Cec

/-! Helper lemmas about the byte-copy of `cec_send`. -/

theorem memcpyList_getD (dst src : List Nat) (n i : Nat) (h : i < dst.length) :
    (memcpyList dst src n).getD i 0 =
      if i < n then src.getD i 0 else dst.getD i 0 := by
  unfold memcpyList
  rw [List.getD_eq_getElem?_getD, List.getElem?_map, List.getElem?_range h]
  rfl

/-- C3.  In the `ACK_VERIFY` entry action, the recorded acknowledge flag is
the sampled line level itself when the destination nibble of the header byte
is the broadcast address 15 (so a low sample records failure and a high
sample records success), and the negation of the sampled level for any other
destination (low records success, high records failure). -/
theorem ack_verify_broadcast_inversion (basis : Nat) (lineIn : Bool)
    (s : CecSystem) :
    (enter_state basis lineIn .CEC_STATE_INITIATOR_ACK_VERIFY s).tx.ack =
      if s.tx.msgt.buf.getD 0 0 % 16 = CEC_BROADCAST_ADDR then lineIn
      else !lineIn := by
  by_cases h : s.tx.msgt.buf.getD 0 0 % 16 = CEC_BROADCAST_ADDR <;>
    simp [enter_state, h]

/-- C4.  `cec_send` called while a transfer is in progress (stored length
non-zero) returns -1 (busy) and leaves the whole module state — message
buffer, length, cursor, resend counter, machine state — untouched; called
with no transfer in progress it returns 0, stores the length, copies the
first `len` message bytes into the transfer buffer (leaving the rest),
arms the transfer-start timer, and changes nothing else. -/
theorem cec_send_busy_or_accept (msg : List Nat) (len : Nat) (s : CecSystem) :
    (s.tx.len ≠ 0 → cec_send msg len s = (-1, s)) ∧
    (s.tx.len = 0 →
      (cec_send msg len s).1 = 0 ∧
      (cec_send msg len s).2 =
        { s with tx.len := len,
                 tx.msgt.buf := memcpyList s.tx.msgt.buf msg len,
                 tmr2 := some 0 } ∧
      (∀ i, i < s.tx.msgt.buf.length →
        ((cec_send msg len s).2.tx.msgt.buf.getD i 0 =
          if i < len then msg.getD i 0 else s.tx.msgt.buf.getD i 0))) := by
  constructor
  · intro h
    unfold cec_send
    simp [h]
  · intro h
    refine ⟨by unfold cec_send; simp [h], by unfold cec_send; simp [h], ?_⟩
    intro i hi
    unfold cec_send
    simp only [h, ne_eq, not_true_eq_false, if_false, ite_false, if_neg,
      not_false_eq_true]
    exact memcpyList_getD _ _ _ _ hi

theorem cec_send_busy_or_accept_witness :
    cec_send [9] 1 { initSystem with tx.len := 2 } =
        (-1, { initSystem with tx.len := 2 }) ∧
    (cec_send [64] 1 initSystem).1 = 0 ∧
    (cec_send [64] 1 initSystem).2.tx.msgt.buf.getD 0 0 = 64 :=
  ⟨(cec_send_busy_or_accept [9] 1 { initSystem with tx.len := 2 }).1
      (by decide),
   ((cec_send_busy_or_accept [64] 1 initSystem).2 (by decide)).1,
   by
     have h := ((cec_send_busy_or_accept [64] 1 initSystem).2 (by decide)).2.2
       0 (by decide)
     simpa using h⟩

/-- C5, counterexample.  It is not true that the current-bit read returns 0
for every cursor whose byte offset is at or past the declared message
length: the guard in `msgt_get_bit` keys on the buffer capacity, not on the
length, so residual buffer content past the length is read.  Concretely,
with declared length 1 and buffer `[0, 255, ...]`, reading at byte offset 1
returns a non-zero bit. -/
theorem msgt_get_bit_past_len_cex :
    ¬ (∀ (m : cec_msg_transfer) (len : Nat),
        len ≤ m.byte → msgt_get_bit m = 0) := by
  intro h
  exact absurd (h { buf := [0, 255], bit := 0, byte := 1 } 1 (by decide))
    (by decide)

/-- C5, amended.  For every cursor whose byte offset is at or past the
fixed buffer capacity `MAX_CEC_MSG_LEN` = 16, `msgt_get_bit` returns
logical 0 without reading the buffer, regardless of the buffer contents. -/
theorem msgt_get_bit_past_capacity (m : cec_msg_transfer)
    (h : MAX_CEC_MSG_LEN ≤ m.byte) : msgt_get_bit m = 0 := by
  unfold msgt_get_bit
  simp [h]

theorem msgt_get_bit_past_capacity_witness :
    MAX_CEC_MSG_LEN ≤ 16 ∧
      msgt_get_bit { buf := List.replicate 16 255, bit := 3, byte := 16 } = 0 :=
  ⟨by decide, msgt_get_bit_past_capacity
    { buf := List.replicate 16 255, bit := 3, byte := 16 } (by decide)⟩

/-- C7.  Entry to `FREE_TIME` arms the one-shot timer with the resend
free time when the resend counter is non-zero and with the new-initiator
free time when it is zero; and for every non-zero clock basis the resend
duration (3 nominal bit times) is strictly shorter than the new-initiator
duration (5 nominal bit times). -/
theorem free_time_selection (basis : Nat) (lineIn : Bool) (s : CecSystem) :
    (s.tx.resends ≠ 0 →
      (enter_state basis lineIn .CEC_STATE_INITIATOR_FREE_TIME s).timer =
        some (FREE_TIME_RS basis)) ∧
    (s.tx.resends = 0 →
      (enter_state basis lineIn .CEC_STATE_INITIATOR_FREE_TIME s).timer =
        some (FREE_TIME_NI basis)) ∧
    (0 < basis → FREE_TIME_RS basis < FREE_TIME_NI basis) := by
  refine ⟨fun h => ?_, fun h => ?_, fun h => ?_⟩
  · unfold enter_state; simp [h]
  · unfold enter_state; simp [h]
  · unfold FREE_TIME_RS FREE_TIME_NI NOMINAL_BIT_TIME APB1_TICKS
    omega

theorem free_time_selection_witness :
    (enter_state 100 false .CEC_STATE_INITIATOR_FREE_TIME
        { initSystem with tx.resends := 1 }).timer = some (FREE_TIME_RS 100) ∧
    (enter_state 100 false .CEC_STATE_INITIATOR_FREE_TIME initSystem).timer =
        some (FREE_TIME_NI 100) ∧
    FREE_TIME_RS 100 < FREE_TIME_NI 100 :=
  ⟨(free_time_selection 100 false { initSystem with tx.resends := 1 }).1
      (by decide),
   (free_time_selection 100 false initSystem).2.1 (by decide),
   (free_time_selection 100 false initSystem).2.2 (by decide)⟩

/-- C8, counterexample.  The timing-shape inequalities are not strict for
every clock basis: at basis 0 every tick count is 0, so
`low_ticks(1) < low_ticks(0)` fails. -/
theorem data_timing_shape_cex :
    ¬ (∀ basis : Nat,
        DATA_LOW basis 1 < DATA_LOW basis 0 ∧
        DATA_HIGH basis 0 < DATA_HIGH basis 1) := by
  intro h
  exact absurd (h 0).1 (by decide)

/-- C8, amended.  For every non-zero clock basis, the truncating tick
computation (`APB1_TICKS`, microseconds times basis divided by 100, the
basis being the timer clock frequency divided by 10000) satisfies
`low_ticks(1) < low_ticks(0)` and `high_ticks(1) > high_ticks(0)`: the
data-one curve (600 us low, 1800 us high) has a strictly shorter low phase
and strictly longer high phase than the data-zero curve (1500 us low,
900 us high). -/
theorem data_timing_shape (basis : Nat) (h : 0 < basis) :
    DATA_LOW basis 1 < DATA_LOW basis 0 ∧
    DATA_HIGH basis 0 < DATA_HIGH basis 1 := by
  unfold DATA_LOW DATA_HIGH DATA_ONE_LOW DATA_ZERO_LOW DATA_ONE_HIGH
    DATA_ZERO_HIGH APB1_TICKS
  simp only [ne_eq, one_ne_zero, not_false_eq_true, if_true, if_neg,
    not_true_eq_false, if_false, ite_true, ite_false]
  omega

theorem data_timing_shape_witness :
    0 < 100 ∧ DATA_LOW 100 1 < DATA_LOW 100 0 ∧
      DATA_HIGH 100 0 < DATA_HIGH 100 1 :=
  ⟨by decide, (data_timing_shape 100 (by decide)).1,
    (data_timing_shape 100 (by decide)).2⟩

/-- C9, counterexample.  The advance operation does not always increment the
bit offset when the byte offset is at or past the capacity: the cursor
fields are 8-bit, so advancing from bit offset 255 wraps the bit offset to
0 instead of incrementing it to 256. -/
theorem msgt_inc_bit_past_capacity_cex :
    ¬ (∀ m : cec_msg_transfer, MAX_CEC_MSG_LEN ≤ m.byte →
        (msgt_inc_bit m).byte = m.byte ∧ (msgt_inc_bit m).bit = m.bit + 1) := by
  intro h
  exact absurd (h { buf := [], bit := 255, byte := 16 } (by decide)).2
    (by decide)

/-- C9, amended.  For every cursor whose byte offset is at or past the
buffer capacity 16, the advance operation leaves the byte offset unchanged
and increments the bit offset modulo 256 (the field is 8-bit) without
wrapping it at 8 — in particular advancing from bit offset 7 yields bit
offset 8; the wrap-to-next-byte guard keys on the fixed capacity
`MAX_CEC_MSG_LEN`, not on the declared message length. -/
theorem msgt_inc_bit_past_capacity (m : cec_msg_transfer)
    (h : MAX_CEC_MSG_LEN ≤ m.byte) :
    (msgt_inc_bit m).byte = m.byte ∧
    (msgt_inc_bit m).bit = (m.bit + 1) % 256 := by
  unfold msgt_inc_bit
  by_cases hb : (m.bit + 1) % 256 = 8 <;> simp [hb, h]

theorem msgt_inc_bit_past_capacity_witness :
    MAX_CEC_MSG_LEN ≤ 16 ∧
    (msgt_inc_bit { buf := [], bit := 7, byte := 16 }).byte = 16 ∧
    (msgt_inc_bit { buf := [], bit := 7, byte := 16 }).bit = (7 + 1) % 256 :=
  ⟨by decide,
   (msgt_inc_bit_past_capacity { buf := [], bit := 7, byte := 16 }
     (by decide)).1,
   (msgt_inc_bit_past_capacity { buf := [], bit := 7, byte := 16 }
     (by decide)).2⟩

/-- C10.  A timer-expiry event delivered in the `IDLE` state changes
nothing at all: the state record (machine state, message buffer, length,
cursor, resend counter, acknowledge flag, pending event mask, line level
and both timers) is returned unchanged. -/
theorem timeout_idle_noop (basis : Nat) (lineIn : Bool) (s : CecSystem)
    (h : s.state = .CEC_STATE_IDLE) :
    cec_event_timeout basis lineIn s = s := by
  rcases s with ⟨st, tx, ev, ln, tm, t2, se⟩
  simp only at h
  subst h
  rfl

theorem timeout_idle_noop_witness :
    initSystem.state = .CEC_STATE_IDLE ∧
      cec_event_timeout 100 true initSystem = initSystem :=
  ⟨by decide, timeout_idle_noop 100 true initSystem (by decide)⟩

end Cec

namespace Cec

set_option maxHeartbeats 1000000 in
theorem header_phase (basis : Nat) (f : CecSystem → Bool) (s : CecSystem)
    (h : s.state = .CEC_STATE_INITIATOR_FREE_TIME) :
    (runWith basis f 19 s).state = .CEC_STATE_INITIATOR_EOM_LOW ∧
    (runWith basis f 19 s).tx.msgt.bit = 0 ∧
    (runWith basis f 19 s).tx.msgt.byte = 1 ∧
    (runWith basis f 19 s).tx.msgt.buf = s.tx.msgt.buf ∧
    (runWith basis f 19 s).tx.len = s.tx.len ∧
    (runWith basis f 19 s).tx.resends = s.tx.resends ∧
    (runWith basis f 19 s).sentEvents = s.sentEvents := by
  rcases s with ⟨st, ⟨⟨buf, bit, byte⟩, len, resends, ack⟩, ev, ln, tm, t2, se⟩
  simp only at h
  subst h
  simp [runWith_succ, runWith_zero, stepWith, cec_event_timeout,
    enter_state, msgt_inc_bit, MAX_CEC_MSG_LEN]

end Cec

namespace Cec

theorem step_free_to_start (basis : Nat) (f : CecSystem → Bool) (s : CecSystem)
    (h : s.state = .CEC_STATE_INITIATOR_FREE_TIME) :
    (stepWith basis f s).state = .CEC_STATE_INITIATOR_START_LOW ∧
    (stepWith basis f s).tx.msgt.bit = 0 ∧
    (stepWith basis f s).tx.msgt.byte = 0 ∧
    (stepWith basis f s).tx.msgt.buf = s.tx.msgt.buf ∧
    (stepWith basis f s).tx.len = s.tx.len ∧
    (stepWith basis f s).tx.resends = s.tx.resends := by
  rcases s with ⟨st, ⟨⟨buf, bit, byte⟩, len, resends, ack⟩, ev, ln, tm, t2, se⟩
  simp only at h
  subst h
  simp [stepWith, cec_event_timeout, enter_state]

set_option maxHeartbeats 1000000 in
theorem data_cont (basis : Nat) (s : CecSystem)
    (h : s.state = .CEC_STATE_INITIATOR_EOM_LOW)
    (hbit : s.tx.msgt.bit = 0)
    (hlt : s.tx.msgt.byte < s.tx.len)
    (hlen : s.tx.len ≤ 16) :
    (runWith basis ackOkSample 21 s).state = .CEC_STATE_INITIATOR_EOM_LOW ∧
    (runWith basis ackOkSample 21 s).tx.msgt.bit = 0 ∧
    (runWith basis ackOkSample 21 s).tx.msgt.byte = s.tx.msgt.byte + 1 ∧
    (runWith basis ackOkSample 21 s).tx.msgt.buf = s.tx.msgt.buf ∧
    (runWith basis ackOkSample 21 s).tx.len = s.tx.len ∧
    (runWith basis ackOkSample 21 s).tx.resends = s.tx.resends ∧
    (runWith basis ackOkSample 21 s).sentEvents = s.sentEvents := by
  rcases s with ⟨st, ⟨⟨buf, bit, byte⟩, len, resends, ack⟩, ev, ln, tm, t2, se⟩
  simp only at h hbit hlt hlen
  subst h; subst hbit
  have hne : byte ≠ len := Nat.ne_of_lt hlt
  have hcap : ¬ (16 ≤ byte) := by omega
  have hmod : (byte + 1) % 256 = byte + 1 := by omega
  by_cases hbc : buf.getD 0 0 % 16 = CEC_BROADCAST_ADDR <;>
    simp [runWith_succ, runWith_zero, stepWith, cec_event_timeout,
      enter_state, msgt_inc_bit, msgt_is_eom, MAX_CEC_MSG_LEN, ackOkSample,
      broadcastFlag, hbc, hne, hcap, hmod]

set_option maxHeartbeats 1000000 in
theorem finish_ok (basis : Nat) (s : CecSystem)
    (h : s.state = .CEC_STATE_INITIATOR_EOM_LOW)
    (hbit : s.tx.msgt.bit = 0)
    (hbe : s.tx.msgt.byte = s.tx.len) :
    (runWith basis ackOkSample 5 s).state = .CEC_STATE_IDLE ∧
    (runWith basis ackOkSample 5 s).tx.len = 0 ∧
    (runWith basis ackOkSample 5 s).tx.resends = 0 ∧
    (runWith basis ackOkSample 5 s).tx.msgt.bit = 0 ∧
    (runWith basis ackOkSample 5 s).tx.msgt.byte = 0 ∧
    (runWith basis ackOkSample 5 s).sentEvents =
      s.sentEvents ++ [EC_MKBP_CEC_SEND_OK] := by
  rcases s with ⟨st, ⟨⟨buf, bit, byte⟩, len, resends, ack⟩, ev, ln, tm, t2, se⟩
  simp only at h hbit hbe
  subst h; subst hbit; subst hbe
  by_cases hbc : buf.getD 0 0 % 16 = CEC_BROADCAST_ADDR <;>
    simp [runWith_succ, runWith_zero, stepWith, cec_event_timeout,
      enter_state, msgt_is_eom, MAX_CEC_MSG_LEN, ackOkSample,
      broadcastFlag, send_mkbp_event, hbc]

set_option maxHeartbeats 1000000 in
theorem finish_fail_retry (basis : Nat) (s : CecSystem)
    (h : s.state = .CEC_STATE_INITIATOR_EOM_LOW)
    (hres : s.tx.resends < CEC_MAX_RESENDS) :
    (runWith basis ackFailSample 5 s).state =
      .CEC_STATE_INITIATOR_FREE_TIME ∧
    (runWith basis ackFailSample 5 s).tx.msgt.buf = s.tx.msgt.buf ∧
    (runWith basis ackFailSample 5 s).tx.len = s.tx.len ∧
    (runWith basis ackFailSample 5 s).tx.resends = s.tx.resends + 1 ∧
    (runWith basis ackFailSample 5 s).sentEvents = s.sentEvents := by
  rcases s with ⟨st, ⟨⟨buf, bit, byte⟩, len, resends, ack⟩, ev, ln, tm, t2, se⟩
  simp only at h hres
  subst h
  by_cases hbc : buf.getD 0 0 % 16 = CEC_BROADCAST_ADDR <;>
    simp [runWith_succ, runWith_zero, stepWith, cec_event_timeout,
      enter_state, MAX_CEC_MSG_LEN, ackFailSample, broadcastFlag, hbc, hres]

set_option maxHeartbeats 1000000 in
theorem finish_fail_abort (basis : Nat) (s : CecSystem)
    (h : s.state = .CEC_STATE_INITIATOR_EOM_LOW)
    (hres : ¬ s.tx.resends < CEC_MAX_RESENDS) :
    (runWith basis ackFailSample 5 s).state = .CEC_STATE_IDLE ∧
    (runWith basis ackFailSample 5 s).tx.len = 0 ∧
    (runWith basis ackFailSample 5 s).tx.resends = 0 ∧
    (runWith basis ackFailSample 5 s).tx.msgt.bit = 0 ∧
    (runWith basis ackFailSample 5 s).tx.msgt.byte = 0 ∧
    (runWith basis ackFailSample 5 s).sentEvents =
      s.sentEvents ++ [EC_MKBP_CEC_SEND_FAILED] := by
  rcases s with ⟨st, ⟨⟨buf, bit, byte⟩, len, resends, ack⟩, ev, ln, tm, t2, se⟩
  simp only at h hres
  subst h
  by_cases hbc : buf.getD 0 0 % 16 = CEC_BROADCAST_ADDR <;>
    simp [runWith_succ, runWith_zero, stepWith, cec_event_timeout,
      enter_state, MAX_CEC_MSG_LEN, ackFailSample, broadcastFlag,
      send_mkbp_event, hbc, hres]

end Cec

namespace Cec

theorem isr_tx_proj (basis : Nat) (s : CecSystem) :
    (cec_isr_tx basis s).state = .CEC_STATE_INITIATOR_FREE_TIME ∧
    (cec_isr_tx basis s).tx = s.tx ∧
    (cec_isr_tx basis s).sentEvents = s.sentEvents := by
  simp [cec_isr_tx, cec_event_tx, enter_state]

theorem send_loop (basis : Nat) (d : Nat) :
    ∀ s : CecSystem, s.state = .CEC_STATE_INITIATOR_EOM_LOW →
      s.tx.msgt.bit = 0 → s.tx.msgt.byte + d = s.tx.len → s.tx.len ≤ 16 →
      (runWith basis ackOkSample (21 * d + 5) s).state = .CEC_STATE_IDLE ∧
      (runWith basis ackOkSample (21 * d + 5) s).tx.len = 0 ∧
      (runWith basis ackOkSample (21 * d + 5) s).tx.resends = 0 ∧
      (runWith basis ackOkSample (21 * d + 5) s).tx.msgt.bit = 0 ∧
      (runWith basis ackOkSample (21 * d + 5) s).tx.msgt.byte = 0 ∧
      (runWith basis ackOkSample (21 * d + 5) s).sentEvents =
        s.sentEvents ++ [EC_MKBP_CEC_SEND_OK] := by
  induction d with
  | zero =>
      intro s h hbit hbyte hlen
      have e : 21 * 0 + 5 = 5 := by norm_num
      rw [e]
      exact finish_ok basis s h hbit (by omega)
  | succ d ih =>
      intro s h hbit hbyte hlen
      have e : 21 * (d + 1) + 5 = (21 * d + 5) + 21 := by ring
      rw [e, runWith_add]
      obtain ⟨c1, c2, c3, c4, c5, c6, c7⟩ :=
        data_cont basis s h hbit (by omega) hlen
      obtain ⟨d1, d2, d3, d4, d5, d6⟩ :=
        ih (runWith basis ackOkSample 21 s) c1 c2 (by omega) (by omega)
      exact ⟨d1, d2, d3, d4, d5, by rw [d6, c7]⟩

/-- C1.  Driving the machine from admission (`cec_send` accepted, transfer
trigger consumed) through `21 * L + 3` timer expiries in which every ACK
sample reads as acknowledged (line low for a non-broadcast destination, line
high for the broadcast destination 15), a message of any length 1 to 16
ends with the machine in `IDLE`, message length 0, resend counter 0, cursor
reset, and exactly one send-ok event recorded. -/
theorem cec_successful_transfer (basis : Nat) (msg : List Nat) (L : Nat)
    (s0 : CecSystem) (hlen0 : s0.tx.len = 0) (hse : s0.sentEvents = [])
    (h1 : 1 ≤ L) (h16 : L ≤ 16) :
    (cec_send msg L s0).1 = 0 ∧
    (runWith basis ackOkSample (21 * L + 3)
        (cec_isr_tx basis (cec_send msg L s0).2)).state = .CEC_STATE_IDLE ∧
    (runWith basis ackOkSample (21 * L + 3)
        (cec_isr_tx basis (cec_send msg L s0).2)).tx.len = 0 ∧
    (runWith basis ackOkSample (21 * L + 3)
        (cec_isr_tx basis (cec_send msg L s0).2)).tx.resends = 0 ∧
    (runWith basis ackOkSample (21 * L + 3)
        (cec_isr_tx basis (cec_send msg L s0).2)).sentEvents =
      [EC_MKBP_CEC_SEND_OK] := by
  have e1 : (cec_send msg L s0).1 = 0 := by unfold cec_send; simp [hlen0]
  have e2 : (cec_send msg L s0).2.tx.len = L := by
    unfold cec_send; simp [hlen0]
  have e3 : (cec_send msg L s0).2.sentEvents = s0.sentEvents := by
    unfold cec_send; simp [hlen0]
  obtain ⟨p1, p2, p3⟩ := isr_tx_proj basis (cec_send msg L s0).2
  have e : 21 * L + 3 = (21 * (L - 1) + 5) + 19 := by omega
  rw [e, runWith_add]
  obtain ⟨a1, a2, a3, a4, a5, a6, a7⟩ :=
    header_phase basis ackOkSample (cec_isr_tx basis (cec_send msg L s0).2) p1
  obtain ⟨d1, d2, d3, d4, d5, d6⟩ :=
    send_loop basis (L - 1)
      (runWith basis ackOkSample 19 (cec_isr_tx basis (cec_send msg L s0).2))
      a1 a2 (by rw [a3, a5, p2, e2]; omega) (by rw [a5, p2, e2]; exact h16)
  refine ⟨e1, d1, d2, d3, ?_⟩
  rw [d6, a7, p3, e3, hse]
  simp

theorem frame_fail_retry (basis : Nat) (s : CecSystem)
    (h : s.state = .CEC_STATE_INITIATOR_FREE_TIME)
    (hres : s.tx.resends < CEC_MAX_RESENDS) :
    (runWith basis ackFailSample 24 s).state =
      .CEC_STATE_INITIATOR_FREE_TIME ∧
    (runWith basis ackFailSample 24 s).tx.msgt.buf = s.tx.msgt.buf ∧
    (runWith basis ackFailSample 24 s).tx.len = s.tx.len ∧
    (runWith basis ackFailSample 24 s).tx.resends = s.tx.resends + 1 ∧
    (runWith basis ackFailSample 24 s).sentEvents = s.sentEvents := by
  have e : (24 : Nat) = 5 + 19 := by norm_num
  rw [e, runWith_add]
  obtain ⟨a1, a2, a3, a4, a5, a6, a7⟩ := header_phase basis ackFailSample s h
  obtain ⟨b1, b2, b3, b4, b5⟩ :=
    finish_fail_retry basis (runWith basis ackFailSample 19 s) a1
      (by rw [a6]; exact hres)
  exact ⟨b1, by rw [b2, a4], by rw [b3, a5], by rw [b4, a6], by rw [b5, a7]⟩

theorem frame_fail_abort (basis : Nat) (s : CecSystem)
    (h : s.state = .CEC_STATE_INITIATOR_FREE_TIME)
    (hres : ¬ s.tx.resends < CEC_MAX_RESENDS) :
    (runWith basis ackFailSample 24 s).state = .CEC_STATE_IDLE ∧
    (runWith basis ackFailSample 24 s).tx.len = 0 ∧
    (runWith basis ackFailSample 24 s).tx.resends = 0 ∧
    (runWith basis ackFailSample 24 s).sentEvents =
      s.sentEvents ++ [EC_MKBP_CEC_SEND_FAILED] := by
  have e : (24 : Nat) = 5 + 19 := by norm_num
  rw [e, runWith_add]
  obtain ⟨a1, a2, a3, a4, a5, a6, a7⟩ := header_phase basis ackFailSample s h
  obtain ⟨b1, b2, b3, b4, b5, b6⟩ :=
    finish_fail_abort basis (runWith basis ackFailSample 19 s) a1
      (by rw [a6]; exact hres)
  exact ⟨b1, b2, b3, by rw [b6, a7]⟩

end Cec

namespace Cec

theorem nak_progress (basis : Nat) :
    ∀ (i : Nat) (s : CecSystem), i ≤ 5 →
      s.state = .CEC_STATE_INITIATOR_FREE_TIME → s.tx.resends = 0 →
      (runWith basis ackFailSample (24 * i) s).state =
        .CEC_STATE_INITIATOR_FREE_TIME ∧
      (runWith basis ackFailSample (24 * i) s).tx.msgt.buf = s.tx.msgt.buf ∧
      (runWith basis ackFailSample (24 * i) s).tx.len = s.tx.len ∧
      (runWith basis ackFailSample (24 * i) s).tx.resends = i ∧
      (runWith basis ackFailSample (24 * i) s).sentEvents = s.sentEvents := by
  intro i
  induction i with
  | zero =>
      intro s _ h hres
      have e : 24 * 0 = 0 := by norm_num
      rw [e, runWith_zero]
      exact ⟨h, rfl, rfl, hres, rfl⟩
  | succ i ih =>
      intro s hi h hres
      have e : 24 * (i + 1) = 24 + 24 * i := by ring
      rw [e, runWith_add]
      obtain ⟨c1, c2, c3, c4, c5⟩ := ih s (by omega) h hres
      obtain ⟨d1, d2, d3, d4, d5⟩ :=
        frame_fail_retry basis (runWith basis ackFailSample (24 * i) s) c1
          (by rw [c4]; unfold CEC_MAX_RESENDS; omega)
      exact ⟨d1, by rw [d2, c2], by rw [d3, c3], by rw [d4, c4],
        by rw [d5, c5]⟩

/-- C2.  Starting a fresh transfer (resend counter 0) and failing every ACK
sample, the machine transmits exactly `1 + CEC_MAX_RESENDS` = 6 frames: for
each attempt number i from 0 to 5 the trajectory is back at `FREE_TIME`
after `24 * i` expiries with the same message buffer and length and resend
counter i, and one further expiry enters `START_LOW` with the cursor reset
to byte 0, bit 0; after the sixth frame (`24 * 6` expiries) the machine is
in `IDLE` with length 0, resend counter 0, and exactly one send-failed
event recorded. -/
theorem cec_all_nak_six_frames (basis : Nat) (msg : List Nat) (L : Nat)
    (s0 : CecSystem) (hlen0 : s0.tx.len = 0) (hse : s0.sentEvents = [])
    (hres0 : s0.tx.resends = 0) (h1 : 1 ≤ L) (h16 : L ≤ 16) :
    (∀ i, i ≤ CEC_MAX_RESENDS →
      (runWith basis ackFailSample (24 * i)
          (cec_isr_tx basis (cec_send msg L s0).2)).state =
        .CEC_STATE_INITIATOR_FREE_TIME ∧
      (runWith basis ackFailSample (24 * i)
          (cec_isr_tx basis (cec_send msg L s0).2)).tx.msgt.buf =
        (cec_isr_tx basis (cec_send msg L s0).2).tx.msgt.buf ∧
      (runWith basis ackFailSample (24 * i)
          (cec_isr_tx basis (cec_send msg L s0).2)).tx.len = L ∧
      (runWith basis ackFailSample (24 * i)
          (cec_isr_tx basis (cec_send msg L s0).2)).tx.resends = i) ∧
    (∀ i, i ≤ CEC_MAX_RESENDS →
      (runWith basis ackFailSample (24 * i + 1)
          (cec_isr_tx basis (cec_send msg L s0).2)).state =
        .CEC_STATE_INITIATOR_START_LOW ∧
      (runWith basis ackFailSample (24 * i + 1)
          (cec_isr_tx basis (cec_send msg L s0).2)).tx.msgt.bit = 0 ∧
      (runWith basis ackFailSample (24 * i + 1)
          (cec_isr_tx basis (cec_send msg L s0).2)).tx.msgt.byte = 0) ∧
    (runWith basis ackFailSample (24 * (CEC_MAX_RESENDS + 1))
        (cec_isr_tx basis (cec_send msg L s0).2)).state = .CEC_STATE_IDLE ∧
    (runWith basis ackFailSample (24 * (CEC_MAX_RESENDS + 1))
        (cec_isr_tx basis (cec_send msg L s0).2)).tx.len = 0 ∧
    (runWith basis ackFailSample (24 * (CEC_MAX_RESENDS + 1))
        (cec_isr_tx basis (cec_send msg L s0).2)).tx.resends = 0 ∧
    (runWith basis ackFailSample (24 * (CEC_MAX_RESENDS + 1))
        (cec_isr_tx basis (cec_send msg L s0).2)).sentEvents =
      [EC_MKBP_CEC_SEND_FAILED] := by
  have e2 : (cec_send msg L s0).2.tx.len = L := by
    unfold cec_send; simp [hlen0]
  have e3 : (cec_send msg L s0).2.sentEvents = s0.sentEvents := by
    unfold cec_send; simp [hlen0]
  have e4 : (cec_send msg L s0).2.tx.resends = s0.tx.resends := by
    unfold cec_send; simp [hlen0]
  obtain ⟨p1, p2, p3⟩ := isr_tx_proj basis (cec_send msg L s0).2
  have hres2 : (cec_isr_tx basis (cec_send msg L s0).2).tx.resends = 0 := by
    rw [p2, e4, hres0]
  have hlen2 : (cec_isr_tx basis (cec_send msg L s0).2).tx.len = L := by
    rw [p2, e2]
  have hse2 : (cec_isr_tx basis (cec_send msg L s0).2).sentEvents = [] := by
    rw [p3, e3, hse]
  refine ⟨?_, ?_, ?_⟩
  · intro i hi
    obtain ⟨c1, c2, c3, c4, c5⟩ :=
      nak_progress basis i (cec_isr_tx basis (cec_send msg L s0).2)
        (by unfold CEC_MAX_RESENDS at hi; omega) p1 hres2
    exact ⟨c1, c2, by rw [c3, hlen2], c4⟩
  · intro i hi
    obtain ⟨c1, c2, c3, c4, c5⟩ :=
      nak_progress basis i (cec_isr_tx basis (cec_send msg L s0).2)
        (by unfold CEC_MAX_RESENDS at hi; omega) p1 hres2
    rw [runWith_succ']
    obtain ⟨f1, f2, f3, f4, f5, f6⟩ := step_free_to_start basis ackFailSample
      (runWith basis ackFailSample (24 * i)
        (cec_isr_tx basis (cec_send msg L s0).2)) c1
    exact ⟨f1, f2, f3⟩
  · obtain ⟨c1, c2, c3, c4, c5⟩ :=
      nak_progress basis 5 (cec_isr_tx basis (cec_send msg L s0).2)
        (by omega) p1 hres2
    have e : 24 * (CEC_MAX_RESENDS + 1) = 24 + 24 * 5 := by
      unfold CEC_MAX_RESENDS; norm_num
    rw [e, runWith_add]
    obtain ⟨g1, g2, g3, g4⟩ :=
      frame_fail_abort basis
        (runWith basis ackFailSample (24 * 5)
          (cec_isr_tx basis (cec_send msg L s0).2)) c1
        (by rw [c4]; unfold CEC_MAX_RESENDS; omega)
    refine ⟨g1, g2, g3, ?_⟩
    rw [g4, c5, hse2]
    simp

end Cec

namespace Cec

theorem msgt_inc_bit_small (m : cec_msg_transfer) (h : m.bit + 1 < 8) :
    msgt_inc_bit m = { m with bit := m.bit + 1 } := by
  unfold msgt_inc_bit
  have e : (m.bit + 1) % 256 = m.bit + 1 := by omega
  rw [e, if_neg (by omega)]

theorem msgt_inc_bit_wrap (m : cec_msg_transfer) (h : m.bit = 7)
    (hcap : m.byte < MAX_CEC_MSG_LEN) :
    msgt_inc_bit m = { m with bit := 0, byte := m.byte + 1 } := by
  unfold msgt_inc_bit
  unfold MAX_CEC_MSG_LEN at hcap
  have e : (m.byte + 1) % 256 = m.byte + 1 := by omega
  have hnle : ¬ (m.byte ≥ MAX_CEC_MSG_LEN) := by
    unfold MAX_CEC_MSG_LEN; omega
  rw [h]
  simp [e, hnle]

set_option maxHeartbeats 1000000 in
theorem Inv_timeout (basis : Nat) (lineIn : Bool) (s : CecSystem)
    (h : Inv s) : Inv (cec_event_timeout basis lineIn s) := by
  rcases s with ⟨st, ⟨⟨buf, bit, byte⟩, len, resends, ack⟩, ev, ln, tm, t2, se⟩
  obtain ⟨hlen, htmr2, hst⟩ := h
  simp only at hlen htmr2 hst
  cases st
  case CEC_STATE_IDLE =>
      exact ⟨hlen, htmr2, hst⟩
  case CEC_STATE_INITIATOR_FREE_TIME =>
      obtain ⟨h1, h2, h3⟩ := hst
      simp at htmr2
      subst htmr2
      simp [cec_event_timeout, enter_state, Inv]
      omega
  case CEC_STATE_INITIATOR_START_LOW =>
      obtain ⟨h1, h2, h3⟩ := hst
      simp at htmr2
      subst htmr2
      simp [cec_event_timeout, enter_state, Inv]
      omega
  case CEC_STATE_INITIATOR_START_HIGH =>
      obtain ⟨h1, h2, h3⟩ := hst
      simp at htmr2
      subst htmr2
      simp [cec_event_timeout, enter_state, Inv]
      omega
  case CEC_STATE_INITIATOR_HEADER_INIT_LOW =>
      obtain ⟨h1, h2, h3⟩ := hst
      simp at htmr2
      subst htmr2
      simp [cec_event_timeout, enter_state, Inv]
      omega
  case CEC_STATE_INITIATOR_HEADER_INIT_HIGH =>
      obtain ⟨h1, h2, h3⟩ := hst
      simp at htmr2
      subst htmr2
      simp only [cec_event_timeout]
      rw [msgt_inc_bit_small _ (by simp; omega)]
      by_cases h4 : bit + 1 = 4 <;>
        simp [h4, enter_state, Inv] <;> omega
  case CEC_STATE_INITIATOR_HEADER_DEST_LOW =>
      obtain ⟨h1, h2, h3, h4⟩ := hst
      simp at htmr2
      subst htmr2
      simp [cec_event_timeout, enter_state, Inv]
      omega
  case CEC_STATE_INITIATOR_HEADER_DEST_HIGH =>
      obtain ⟨h1, h2, h3, h4⟩ := hst
      simp at htmr2
      subst htmr2
      simp only [cec_event_timeout]
      by_cases h7 : bit = 7
      · rw [msgt_inc_bit_wrap _ (by simpa using h7)
          (by simp [MAX_CEC_MSG_LEN]; omega)]
        simp [h3, enter_state, Inv]
        omega
      · rw [msgt_inc_bit_small _ (by simp; omega)]
        have h5 : ¬ (bit + 1 = 8) := by omega
        simp [h3, h5, enter_state, Inv]
        omega
  case CEC_STATE_INITIATOR_DATA_LOW =>
      obtain ⟨h1, h2⟩ := hst
      simp at htmr2
      subst htmr2
      simp [cec_event_timeout, enter_state, Inv]
      omega
  case CEC_STATE_INITIATOR_DATA_HIGH =>
      obtain ⟨h1, h2⟩ := hst
      simp at htmr2
      subst htmr2
      simp only [cec_event_timeout]
      by_cases h7 : bit = 7
      · rw [msgt_inc_bit_wrap _ (by simpa using h7)
          (by simp [MAX_CEC_MSG_LEN]; omega)]
        simp [enter_state, Inv]
        omega
      · rw [msgt_inc_bit_small _ (by simp; omega)]
        have h5 : ¬ (bit + 1 = 0) := by omega
        simp [h5, enter_state, Inv]
        omega
  case CEC_STATE_INITIATOR_EOM_LOW =>
      obtain ⟨h1, h2, h3⟩ := hst
      simp at htmr2
      subst htmr2
      simp [cec_event_timeout, enter_state, Inv]
      omega
  case CEC_STATE_INITIATOR_EOM_HIGH =>
      obtain ⟨h1, h2, h3⟩ := hst
      simp at htmr2
      subst htmr2
      simp [cec_event_timeout, enter_state, Inv]
      omega
  case CEC_STATE_INITIATOR_ACK_LOW =>
      obtain ⟨h1, h2, h3⟩ := hst
      simp at htmr2
      subst htmr2
      simp [cec_event_timeout, enter_state, Inv]
      omega
  case CEC_STATE_INITIATOR_ACK_HIGH =>
      obtain ⟨h1, h2, h3⟩ := hst
      simp at htmr2
      subst htmr2
      simp [cec_event_timeout, enter_state, Inv]
      omega
  case CEC_STATE_INITIATOR_ACK_VERIFY =>
      obtain ⟨h1, h2, h3⟩ := hst
      simp at htmr2
      subst htmr2
      cases ack
      · by_cases hr : resends < CEC_MAX_RESENDS <;>
          simp [cec_event_timeout, enter_state, Inv, send_mkbp_event,
            msgt_is_eom, hr] <;> omega
      · by_cases hbe : byte = len <;>
          simp [cec_event_timeout, enter_state, Inv, send_mkbp_event,
            msgt_is_eom, hbe, h1] <;> omega

end Cec

namespace Cec

theorem Inv_host_send (msg : List Nat) (n : Nat) (s : CecSystem)
    (h : Inv s) : Inv (hc_cec_write msg n s).2 := by
  rcases s with ⟨st, ⟨⟨buf, bit, byte⟩, len, resends, ack⟩, ev, ln, tm, t2, se⟩
  obtain ⟨hlen, htmr2, hst⟩ := h
  simp only at hlen htmr2 hst
  by_cases hg : n = 0 ∨ n > MAX_CEC_MSG_LEN
  · unfold hc_cec_write
    simp only [hg, if_true, ite_true]
    exact ⟨hlen, htmr2, hst⟩
  · have hg2 : n ≤ MAX_CEC_MSG_LEN := le_of_not_lt (fun hc => hg (Or.inr hc))
    unfold MAX_CEC_MSG_LEN at hg2
    by_cases hl : len = 0
    · cases st
      · obtain ⟨hb, hB⟩ := hst
        unfold hc_cec_write cec_send
        simp [hg, hl]
        simp [Inv, hb, hB]
        omega
      all_goals (exfalso; simp only at hst; omega)
    · unfold hc_cec_write cec_send
      simp [hg, hl]
      exact ⟨hlen, htmr2, hst⟩

theorem Inv_isr_tx (basis : Nat) (s : CecSystem) (h : Inv s)
    (ht : s.tmr2 ≠ none) : Inv (cec_isr_tx basis s) := by
  rcases s with ⟨st, ⟨⟨buf, bit, byte⟩, len, resends, ack⟩, ev, ln, tm, t2, se⟩
  obtain ⟨hlen, htmr2, hst⟩ := h
  obtain ⟨hidle, hlen1⟩ := htmr2 ht
  simp only at hlen hlen1 hidle
  subst hidle
  obtain ⟨hb, hB⟩ := hst
  simp only at hb hB
  simp [cec_isr_tx, cec_event_tx, enter_state, Inv, hb, hB]
  omega

theorem Inv_init : Inv initSystem := by
  simp [Inv, initSystem]

theorem Reach_Inv {basis : Nat} {s : CecSystem} (h : Reach basis s) :
    Inv s := by
  induction h with
  | init => exact Inv_init
  | host_send msg n _ ih => exact Inv_host_send msg n _ ih
  | timer lineIn _ ih => exact Inv_timeout _ lineIn _ ih
  | txStart _ ht ih => exact Inv_isr_tx _ _ ih ht

/-- C6, counterexample.  The bit offset of the cursor is not always in
[0,7) while a transfer is in progress: after admitting the one-byte message
64 and 17 timer expiries the machine sits in `HEADER_DEST_LOW` with bit
offset exactly 7 and a non-zero message length. -/
theorem cursor_invariant_cex :
    ¬ (∀ s : CecSystem, Reach 100 s → 0 < s.tx.len →
        s.tx.msgt.bit < 7 ∧ s.tx.msgt.byte ≤ s.tx.len) := by
  intro h
  have hr : Reach 100 (runWith 100 ackOkSample 17
      (cec_isr_tx 100 (hc_cec_write [64] 1 initSystem).2)) :=
    Reach_runWith ackOkSample 17
      (Reach.txStart (Reach.host_send [64] 1 Reach.init) (by decide))
  exact absurd (h _ hr (by decide)).1 (by decide)

/-- C6, amended.  In every reachable state in which a transfer is in
progress (stored length non-zero) the cursor satisfies: bit offset in
[0,8) and byte offset at most the message length; moreover entry to `IDLE`
and entry to the first bit-producing state `START_LOW` of each frame reset
the cursor to byte 0, bit 0. -/
theorem cursor_invariant (basis : Nat) :
    (∀ s : CecSystem, Reach basis s → 0 < s.tx.len →
      s.tx.msgt.bit < 8 ∧ s.tx.msgt.byte ≤ s.tx.len) ∧
    (∀ (lineIn : Bool) (s : CecSystem),
      (enter_state basis lineIn .CEC_STATE_IDLE s).tx.msgt.bit = 0 ∧
      (enter_state basis lineIn .CEC_STATE_IDLE s).tx.msgt.byte = 0) ∧
    (∀ (lineIn : Bool) (s : CecSystem),
      (enter_state basis lineIn
        .CEC_STATE_INITIATOR_START_LOW s).tx.msgt.bit = 0 ∧
      (enter_state basis lineIn
        .CEC_STATE_INITIATOR_START_LOW s).tx.msgt.byte = 0) := by
  refine ⟨?_, ?_, ?_⟩
  · intro s hr hpos
    have hi := Reach_Inv hr
    rcases s with ⟨st, ⟨⟨buf, bit, byte⟩, len, resends, ack⟩, ev, ln, tm,
      t2, se⟩
    obtain ⟨hlen, htmr2, hst⟩ := hi
    simp only at hlen hst hpos ⊢
    cases st <;> simp only at hst <;> omega
  · intro lineIn s
    simp [enter_state]
  · intro lineIn s
    simp [enter_state]

theorem cursor_invariant_witness :
    0 < (hc_cec_write [64] 1 initSystem).2.tx.len ∧
    ((hc_cec_write [64] 1 initSystem).2.tx.msgt.bit < 8 ∧
      (hc_cec_write [64] 1 initSystem).2.tx.msgt.byte ≤
        (hc_cec_write [64] 1 initSystem).2.tx.len) :=
  ⟨by decide, (cursor_invariant 100).1 _
    (Reach.host_send [64] 1 Reach.init) (by decide)⟩

end Cec

namespace Cec

theorem cec_successful_transfer_witness :
    initSystem.tx.len = 0 ∧ initSystem.sentEvents = [] ∧
    (runWith 100 ackOkSample (21 * 1 + 3)
        (cec_isr_tx 100 (cec_send [64] 1 initSystem).2)).sentEvents =
      [EC_MKBP_CEC_SEND_OK] :=
  ⟨rfl, rfl,
    (cec_successful_transfer 100 [64] 1 initSystem rfl rfl (by decide)
      (by decide)).2.2.2.2⟩

theorem cec_all_nak_six_frames_witness :
    initSystem.tx.resends = 0 ∧
    (runWith 100 ackFailSample (24 * 3)
        (cec_isr_tx 100 (cec_send [64] 1 initSystem).2)).tx.resends = 3 ∧
    (runWith 100 ackFailSample (24 * (CEC_MAX_RESENDS + 1))
        (cec_isr_tx 100 (cec_send [64] 1 initSystem).2)).sentEvents =
      [EC_MKBP_CEC_SEND_FAILED] := by
  obtain ⟨A, B, C⟩ := cec_all_nak_six_frames 100 [64] 1 initSystem rfl rfl rfl
    (by decide) (by decide)
  exact ⟨rfl, (A 3 (by decide)).2.2.2, C.2.2.2⟩

end Cec
